import Mathlib

/-
Verification of the PANW ACI configuration migrator (src/migrator.py).

The migrator rewrites an APIC tenant configuration tree from device-package
schema 1.2 to 1.3.  We shallowly embed the entity tree model (Tenant,
AppProfile, EPG, Folder, Parameter, Relation) and each migration pass as a
pure Lean function; the Python code mutates the tree in place while
iterating over snapshots returned by get_children, which corresponds to
mapping over the current child list and appending newly created children
at the end, exactly as done below.
-/

namespace Migrator

/-- Python str.endswith: the second string is a suffix of the first. -/
def strEndsWith (s suf : String) : Bool := suf.data.isSuffixOf s.data

/-- Python s[:n] for n ≥ 0. -/
def strTake (s : String) (n : Nat) : String := String.mk (s.data.take n)

/-- Python s[:-n] for n > 0 (empty when the string has at most n chars). -/
def strDropRight (s : String) (n : Nat) : String :=
  String.mk (s.data.take (s.data.length - n))

/-- Python s[n:] for n ≥ 0. -/
def strDrop (s : String) (n : Nat) : String := String.mk (s.data.drop n)

/-- Python str.lower for the ASCII strings used here. -/
def strLower (s : String) : String := String.mk (s.data.map Char.toLower)

def splitOnCharAux (sep : Char) : List Char → List Char → List (List Char)
  | [], acc => [acc.reverse]
  | c :: cs, acc =>
      if c == sep then acc.reverse :: splitOnCharAux sep cs []
      else splitOnCharAux sep cs (c :: acc)

/-- Python s.split(sep) for a one-character separator. -/
def strSplit (s : String) (sep : Char) : List String :=
  (splitOnCharAux sep s.data []).map String.mk

/-- A vnsParamInst child of a Folder: a single scalar configuration value.
`deleted` models acitoolkit mark_as_deleted (soft delete). -/
structure Parameter where
  name : String
  key : String
  value : String
  deleted : Bool
deriving DecidableEq

/-- A vnsCfgRelInst child of a Folder: a named reference to another
Folder by name. -/
structure Relation where
  name : String
  key : String
  targetName : String
  deleted : Bool
deriving DecidableEq

/-- A vnsFolderInst: a typed configuration block.  Folders nest and also own
Parameters and Relations; the scalar fields are the five schema fields the
migrator copies around, plus the `key` type tag and the `name`. -/
inductive Folder where
  | mk (name key ctrctNameOrLbl devCtxLbl graphNameOrLbl nodeNameOrLbl scopedBy : String)
      (subfolders : List Folder) (params : List Parameter) (relations : List Relation)
      (deleted : Bool)

mutual

def Folder.decEq : (a b : Folder) → Decidable (a = b)
  | .mk n1 k1 c1 d1 g1 o1 s1 sf1 p1 r1 del1, .mk n2 k2 c2 d2 g2 o2 s2 sf2 p2 r2 del2 =>
    match Folder.decEqList sf1 sf2 with
    | isFalse h => isFalse fun he => by cases he; exact h rfl
    | isTrue hsf =>
      if h : n1 = n2 ∧ k1 = k2 ∧ c1 = c2 ∧ d1 = d2 ∧ g1 = g2 ∧ o1 = o2 ∧ s1 = s2
          ∧ p1 = p2 ∧ r1 = r2 ∧ del1 = del2 then
        isTrue (by
          obtain ⟨h1, h2, h3, h4, h5, h6, h7, h8, h9, h10⟩ := h
          subst hsf; subst h1; subst h2; subst h3; subst h4; subst h5
          subst h6; subst h7; subst h8; subst h9; subst h10; rfl)
      else
        isFalse fun he => by
          cases he; exact h ⟨rfl, rfl, rfl, rfl, rfl, rfl, rfl, rfl, rfl, rfl⟩

def Folder.decEqList : (a b : List Folder) → Decidable (a = b)
  | [], [] => isTrue rfl
  | [], _ :: _ => isFalse fun he => by cases he
  | _ :: _, [] => isFalse fun he => by cases he
  | a :: as, b :: bs =>
    match Folder.decEq a b, Folder.decEqList as bs with
    | isTrue h1, isTrue h2 => isTrue (by rw [h1, h2])
    | isFalse h1, _ => isFalse fun he => by cases he; exact h1 rfl
    | _, isFalse h2 => isFalse fun he => by cases he; exact h2 rfl

end

instance : DecidableEq Folder := Folder.decEq

def Folder.name : Folder → String
  | .mk n _ _ _ _ _ _ _ _ _ _ => n

def Folder.key : Folder → String
  | .mk _ k _ _ _ _ _ _ _ _ _ => k

def Folder.ctrctNameOrLbl : Folder → String
  | .mk _ _ c _ _ _ _ _ _ _ _ => c

def Folder.devCtxLbl : Folder → String
  | .mk _ _ _ d _ _ _ _ _ _ _ => d

def Folder.graphNameOrLbl : Folder → String
  | .mk _ _ _ _ g _ _ _ _ _ _ => g

def Folder.nodeNameOrLbl : Folder → String
  | .mk _ _ _ _ _ nd _ _ _ _ _ => nd

def Folder.scopedBy : Folder → String
  | .mk _ _ _ _ _ _ sc _ _ _ _ => sc

def Folder.subfolders : Folder → List Folder
  | .mk _ _ _ _ _ _ _ sf _ _ _ => sf

def Folder.params : Folder → List Parameter
  | .mk _ _ _ _ _ _ _ _ ps _ _ => ps

def Folder.relations : Folder → List Relation
  | .mk _ _ _ _ _ _ _ _ _ rs _ => rs

def Folder.deleted : Folder → Bool
  | .mk _ _ _ _ _ _ _ _ _ _ d => d

/-- mark_as_deleted on a Folder. -/
def Folder.markDeleted : Folder → Folder
  | .mk n k c d g nd sc sf ps rs _ => .mk n k c d g nd sc sf ps rs true

/-- An fvAEPg: owns Folders. -/
structure EPG where
  name : String
  folders : List Folder
deriving DecidableEq

/-- An fvAp: owns EPGs. -/
structure AppProfile where
  name : String
  epgs : List EPG
deriving DecidableEq

/-- An fvTenant: owns AppProfiles. -/
structure Tenant where
  name : String
  apps : List AppProfile
deriving DecidableEq

/-- The backup-name suffix used throughout migrator.py. -/
def premigrationSuffix : String := "_premigration"

/-- migrator.py line 121: a Folder is picked up by the interface-key pass
when its key is InterfaceConfig and its name is not already a backup name. -/
def folderNeedsMigration (f : Folder) : Bool :=
  f.key == "InterfaceConfig" && !(strEndsWith f.name premigrationSuffix)

/-- migrator.py lines 125-127: deepcopy the folder and append the backup
suffix to its name and ctrctNameOrLbl. -/
def makeBackup : Folder → Folder
  | .mk n k c d g nd sc sf ps rs del =>
      .mk (n ++ premigrationSuffix) k (c ++ premigrationSuffix) d g nd sc sf ps rs del

/-- migrator.py lines 133-138: a direct child Folder whose key is
Layer3InterfaceConfig or Layer2InterfaceConfig gets key[:15]. -/
def migrateSubfolderKey (sf : Folder) : Folder :=
  if sf.key == "Layer3InterfaceConfig" || sf.key == "Layer2InterfaceConfig" then
    match sf with
    | .mk n k c d g nd sc sfs ps rs del => .mk n (strTake k 15) c d g nd sc sfs ps rs del
  else sf

/-- migrator.py lines 130-138: the in-place rewrite of a matched
InterfaceConfig folder (key becomes Interface, sub-folder keys truncated). -/
def migrateFolder : Folder → Folder
  | .mk n _ c d g nd sc sf ps rs del =>
      .mk n "Interface" c d g nd sc (sf.map migrateSubfolderKey) ps rs del

/-- migrate_interface_folder_keys, body of the per-EPG loop
(migrator.py lines 119-138).  The loop iterates over a snapshot of the
EPG's folders, rewrites matched folders in place and appends one backup
per matched folder at the end of the child list. -/
def migrateIFKeysEpg (e : EPG) : EPG × Bool :=
  let matched := e.folders.filter folderNeedsMigration
  (⟨e.name,
    e.folders.map (fun f => if folderNeedsMigration f then migrateFolder f else f)
      ++ matched.map makeBackup⟩,
   !matched.isEmpty)

/-- migrator.py line 164 / 223: the layer sub-folder keys after renaming. -/
def isLayerKey (k : String) : Bool := k == "Layer3Interface" || k == "Layer2Interface"

/-- migrator.py line 167: parameter keys picked up by the zone/vlan pass. -/
def isZVParam (p : Parameter) : Bool := p.key == "security_zone" || p.key == "bridge_domain"

def Parameter.markDeleted (p : Parameter) : Parameter := { p with deleted := true }

/-- migrator.py lines 181-192: the reference role for a matched parameter. -/
def zvRefKey (k : String) : String :=
  if k == "bridge_domain" then "vlan" else if k == "security_zone" then "zone" else ""

/-- migrator.py lines 175-192: the new Vlan or Zone Folder created under the
EPG, named after the parameter's value and copying the Interface folder's
five schema fields; Zone folders get a mode Parameter from the layer key. -/
def newZVFolder (f lf : Folder) (p : Parameter) : Folder :=
  Folder.mk p.value
    (if p.key == "bridge_domain" then "Vlan"
     else if p.key == "security_zone" then "Zone" else "")
    f.ctrctNameOrLbl f.devCtxLbl f.graphNameOrLbl f.nodeNameOrLbl f.scopedBy
    [] (if p.key == "security_zone"
        then [⟨"mode", "mode", strLower (strTake lf.key 6), false⟩] else []) [] false

/-- migrator.py lines 194-196: the Relation added on the layer sub-folder,
pointing at the new folder (whose name is the parameter's value). -/
def zvRelation (p : Parameter) : Relation :=
  ⟨p.key ++ "_rel", zvRefKey p.key, p.value, false⟩

/-- Replace a Folder's subfolder list, keeping every other attribute. -/
def Folder.withSubfolders : Folder → List Folder → Folder
  | .mk n k c d g nd sc _ ps rs del, sf => .mk n k c d g nd sc sf ps rs del

/-- Replace a Folder's parameter and relation lists, keeping the rest. -/
def Folder.withParamsRelations : Folder → List Parameter → List Relation → Folder
  | .mk n k c d g nd sc sf _ _ del, ps, rs => .mk n k c d g nd sc sf ps rs del

/-- Zone/vlan pass on one layer sub-folder (migrator.py lines 163-197):
matched parameters are marked deleted and one Relation per matched
parameter is appended; the new folders created under the EPG (with fields
copied from the enclosing Interface folder f) are returned separately in
parameter order. -/
def zvLayer (f : Folder) (lf : Folder) : Folder × List Folder :=
  if isLayerKey lf.key then
    (lf.withParamsRelations
       (lf.params.map fun p => if isZVParam p then p.markDeleted else p)
       (lf.relations ++ (lf.params.filter isZVParam).map zvRelation),
     (lf.params.filter isZVParam).map (newZVFolder f lf))
  else (lf, [])

/-- Zone/vlan pass on one EPG folder (migrator.py lines 159-197): only
folders with key Interface are descended into. -/
def zvFolder (f : Folder) : Folder × List Folder :=
  if f.key == "Interface" then
    let rs2 := f.subfolders.map (zvLayer f)
    (f.withSubfolders (rs2.map Prod.fst), (rs2.map Prod.snd).flatten)
  else (f, [])

/-- migrate_zones_and_vlans, body of the per-EPG loop
(migrator.py lines 158-197).  New folders are created under the EPG while
iterating a snapshot of its folder list, so they end up appended after the
existing children. -/
def migrateZVEpg (e : EPG) : EPG × Bool :=
  let rs := e.folders.map zvFolder
  (⟨e.name, rs.map Prod.fst ++ (rs.map Prod.snd).flatten⟩,
   !((rs.map Prod.snd).flatten.isEmpty))

/-- migrator.py lines 234-247: the new StaticRoute Folder created for a
default_gateway parameter: named default_gateway, fields copied from the
Interface folder, with nexthop and destination Parameters. -/
def newStaticRouteFolder (f : Folder) (p : Parameter) : Folder :=
  Folder.mk "default_gateway" "StaticRoute"
    f.ctrctNameOrLbl f.devCtxLbl f.graphNameOrLbl f.nodeNameOrLbl f.scopedBy
    [] [⟨"nexthop", "nexthop", p.value, false⟩,
        ⟨"destination", "destination", "0.0.0.0/0", false⟩] [] false

/-- Default-gateway pass on one layer sub-folder
(migrator.py lines 222-247): default_gateway parameters are marked deleted
and one StaticRoute folder per matched parameter is created under the EPG.
No Relation is created by this pass. -/
def dgLayer (f : Folder) (lf : Folder) : Folder × List Folder :=
  if isLayerKey lf.key then
    (lf.withParamsRelations
       (lf.params.map fun p => if p.key == "default_gateway" then p.markDeleted else p)
       lf.relations,
     (lf.params.filter (fun p => p.key == "default_gateway")).map (newStaticRouteFolder f))
  else (lf, [])

/-- Default-gateway pass on one EPG folder (migrator.py lines 218-247). -/
def dgFolder (f : Folder) : Folder × List Folder :=
  if f.key == "Interface" then
    let rs2 := f.subfolders.map (dgLayer f)
    (f.withSubfolders (rs2.map Prod.fst), (rs2.map Prod.snd).flatten)
  else (f, [])

/-- migrate_default_gateway, body of the per-EPG loop
(migrator.py lines 217-247). -/
def migrateDGEpg (e : EPG) : EPG × Bool :=
  let rs := e.folders.map dgFolder
  (⟨e.name, rs.map Prod.fst ++ (rs.map Prod.snd).flatten⟩,
   !((rs.map Prod.snd).flatten.isEmpty))

/-- migrator.py line 300: a cleanup target is an InterfaceConfig folder
whose name carries the backup suffix. -/
def isCleanupTarget (f : Folder) : Bool :=
  f.key == "InterfaceConfig" && strEndsWith f.name premigrationSuffix

/-- cleanup_interface_folders, body of the per-EPG loop
(migrator.py lines 298-309): backup folders are marked deleted in place. -/
def cleanupEpg (e : EPG) : EPG × Bool :=
  let matched := e.folders.filter isCleanupTarget
  (⟨e.name, e.folders.map (fun f => if isCleanupTarget f then f.markDeleted else f)⟩,
   !matched.isEmpty)

/-- migrator.py lines 334 and 363: the keys of folders produced by the
forward migration. -/
def isMigratedKey (k : String) : Bool :=
  k == "Interface" || k == "Zone" || k == "Vlan" || k == "StaticRoute"

/-- delete_migrated_folders, body of the per-EPG loop
(migrator.py lines 332-338): every folder with a migrated key is marked
deleted in place. -/
def deleteMigratedEpg (e : EPG) : EPG × Bool :=
  let matched := e.folders.filter (fun f => isMigratedKey f.key)
  (⟨e.name, e.folders.map (fun f => if isMigratedKey f.key then f.markDeleted else f)⟩,
   !matched.isEmpty)

/-- migrator.py lines 373-374: strip the 13-character backup suffix from
name and ctrctNameOrLbl. -/
def restoreFolder : Folder → Folder
  | .mk n k c d g nd sc sf ps rs del =>
      .mk (strDropRight n 13) k (strDropRight c 13) d g nd sc sf ps rs del

/-- revert_interface_folders, body of the per-EPG loop
(migrator.py lines 361-374).  First loop: folders with a migrated key are
removed from the EPG.  Second loop, over a snapshot of what remains: each
folder whose name ends in the backup suffix is deep-copied, the copy is
appended and marked deleted, and the original has the suffix stripped from
name and ctrctNameOrLbl. -/
def revertEpg (e : EPG) : EPG × Bool :=
  let kept := e.folders.filter (fun f => !(isMigratedKey f.key))
  let matched := kept.filter (fun f => strEndsWith f.name premigrationSuffix)
  (⟨e.name,
    kept.map (fun f => if strEndsWith f.name premigrationSuffix then restoreFolder f else f)
      ++ matched.map Folder.markDeleted⟩,
   !matched.isEmpty)

/-- Replace the first AppProfile whose name matches; models in-place
mutation of the AppProfile found by tenant.get_child. -/
def updateFirstApp (apps : List AppProfile) (appName : String) (na : AppProfile) :
    List AppProfile :=
  match apps with
  | [] => []
  | a :: rest =>
      if a.name == appName then na :: rest else a :: updateFirstApp rest appName na

/-- Common skeleton of every tree pass in migrator.py (e.g. lines 113-139):
look up the AppProfile by name (tenant.get_child); if absent print an error
and return False leaving the tree untouched; otherwise run the per-EPG body
on every EPG of that app and report whether any EPG changed. -/
def tenantPass (epgPass : EPG → EPG × Bool) (t : Tenant) (appName : String) :
    Tenant × Bool :=
  match t.apps.find? (fun a => a.name == appName) with
  | none => (t, false)
  | some app =>
      let rs := app.epgs.map epgPass
      (⟨t.name, updateFirstApp t.apps appName ⟨app.name, rs.map Prod.fst⟩⟩,
       rs.any Prod.snd)

/-- migrate_interface_folder_keys (migrator.py lines 103-139). -/
def migrate_interface_folder_keys (t : Tenant) (appName : String) : Tenant × Bool :=
  tenantPass migrateIFKeysEpg t appName

/-- migrate_zones_and_vlans (migrator.py lines 142-198). -/
def migrate_zones_and_vlans (t : Tenant) (appName : String) : Tenant × Bool :=
  tenantPass migrateZVEpg t appName

/-- migrate_default_gateway (migrator.py lines 201-248). -/
def migrate_default_gateway (t : Tenant) (appName : String) : Tenant × Bool :=
  tenantPass migrateDGEpg t appName

/-- cleanup_interface_folders (migrator.py lines 282-310). -/
def cleanup_interface_folders (t : Tenant) (appName : String) : Tenant × Bool :=
  tenantPass cleanupEpg t appName

/-- delete_migrated_folders (migrator.py lines 313-339). -/
def delete_migrated_folders (t : Tenant) (appName : String) : Tenant × Bool :=
  tenantPass deleteMigratedEpg t appName

/-- revert_interface_folders (migrator.py lines 342-375). -/
def revert_interface_folders (t : Tenant) (appName : String) : Tenant × Bool :=
  tenantPass revertEpg t appName

/-- The three forward passes in the order main runs them
(migrator.py lines 459-462). -/
def forwardPasses (t : Tenant) (appName : String) : Tenant :=
  (migrate_default_gateway
    (migrate_zones_and_vlans
      (migrate_interface_folder_keys t appName).1 appName).1 appName).1

/-- The revert flow on the tree: delete_migrated_folders then
revert_interface_folders (migrator.py lines 475-485). -/
def revertPasses (t : Tenant) (appName : String) : Tenant :=
  (revert_interface_folders (delete_migrated_folders t appName).1 appName).1

/-- A JSON object as returned by the APIC flat query: an attribute map and
a list of children, each child being a single-key mapping from an APIC
class name to a nested object. -/
inductive AJson where
  | mk (attributes : List (String × String)) (children : List (String × AJson))

def AJson.attributes : AJson → List (String × String)
  | .mk a _ => a

def AJson.children : AJson → List (String × AJson)
  | .mk _ c => c

mutual

def AJson.decEq2 : (a b : AJson) → Decidable (a = b)
  | .mk a1 c1, .mk a2 c2 =>
    match decEq a1 a2 with
    | isFalse h => isFalse fun he => by cases he; exact h rfl
    | isTrue h1 =>
      match AJson.decEqChildren c1 c2 with
      | isFalse h => isFalse fun he => by cases he; exact h rfl
      | isTrue h2 => isTrue (by rw [h1, h2])

def AJson.decEqChildren : (a b : List (String × AJson)) → Decidable (a = b)
  | [], [] => isTrue rfl
  | [], _ :: _ => isFalse fun he => by cases he
  | _ :: _, [] => isFalse fun he => by cases he
  | (s1, j1) :: as, (s2, j2) :: bs =>
    match decEq s1 s2, AJson.decEq2 j1 j2, AJson.decEqChildren as bs with
    | isTrue h1, isTrue h2, isTrue h3 => isTrue (by rw [h1, h2, h3])
    | isFalse h1, _, _ => isFalse fun he => by cases he; exact h1 rfl
    | _, isFalse h2, _ => isFalse fun he => by cases he; exact h2 rfl
    | _, _, isFalse h3 => isFalse fun he => by cases he; exact h3 rfl

end

instance : DecidableEq AJson := AJson.decEq2

/-- A record returned by get_clusters: a Python dict mapping an APIC class
name to an object; modelled as an association list so that records lacking
an expected class key can be expressed. -/
def ClusterRecord := List (String × AJson)

instance : DecidableEq ClusterRecord := fun a b => AJson.decEqChildren a b

/-- Python `key in cluster`. -/
def hasClass (c : ClusterRecord) (cls : String) : Bool :=
  c.any (fun kv => kv.1 == cls)

/-- Python cluster[cls]: KeyError (none) when the class key is absent. -/
def getClass (c : ClusterRecord) (cls : String) : Option AJson :=
  (c.find? (fun kv => kv.1 == cls)).map Prod.snd

/-- Python cluster[cls]['attributes'][attr]: KeyError (none) when absent. -/
def getAttr (c : ClusterRecord) (cls attr : String) : Option String :=
  match getClass c cls with
  | none => none
  | some j => (j.attributes.find? (fun kv => kv.1 == attr)).map Prod.snd

/-- In-place update of cluster[cls]['attributes'][attr] (the devmgr and
chassis branches mutate the record's tDn and re-emit the whole record). -/
def setAttr (c : ClusterRecord) (cls attr v : String) : ClusterRecord :=
  c.map fun kv =>
    if kv.1 == cls then
      (kv.1, AJson.mk (kv.2.attributes.map fun av => if av.1 == attr then (av.1, v) else av)
          kv.2.children)
    else kv

instance {ε α : Type} [DecidableEq ε] [DecidableEq α] : DecidableEq (Except ε α) :=
  fun a b =>
    match a, b with
    | .ok x, .ok y =>
        if h : x = y then isTrue (by rw [h]) else isFalse fun he => by cases he; exact h rfl
    | .error x, .error y =>
        if h : x = y then isTrue (by rw [h]) else isFalse fun he => by cases he; exact h rfl
    | .ok _, .error _ => isFalse fun he => by cases he
    | .error _, .ok _ => isFalse fun he => by cases he

def panosDn12 : String := "uni/infra/mDev-PaloAltoNetworks-PANOS-1.2"
def panosDn13 : String := "uni/infra/mDev-PaloAltoNetworks-PANOS-1.3"
def panoramaDn12 : String := "uni/infra/mDevMgr-PaloAltoNetworks-Panorama-1.2"
def panoramaDn13 : String := "uni/infra/mDevMgr-PaloAltoNetworks-Panorama-1.3"
def chassisDn12 : String := "uni/infra/mChassis-PaloAltoNetworks-Chassis-1.2"
def chassisDn13 : String := "uni/infra/mChassis-PaloAltoNetworks-Chassis-1.3"

/-- migrator.py lines 264 and 391: the cluster name is parsed from the dn,
taking path component 2 (IndexError when absent) and dropping the first
8 characters (the length of lDevVip-). -/
def clusterNameOfDn (dn : String) : Option String :=
  ((strSplit dn '/')[2]?).map (fun seg => strDrop seg 8)

/-- migrator.py lines 266-268 and 393-395: the fresh vnsLDevVip fragment
emitted for a matched device-package attachment. -/
def emitLDevVip (nm tDn : String) : ClusterRecord :=
  [("vnsLDevVip", AJson.mk [("name", nm)]
      [("vnsRsMDevAtt", AJson.mk [("tDn", tDn)] [])])]

/-- One record of migrate_clusters (migrator.py lines 262-278).  Python
raises KeyError on a missing dict key and AttributeError on cluster.name
(clusters are dicts), both modelled as Except.error.  The emitted fragments
for the record are returned. -/
def migrateClusterRecord (c : ClusterRecord) : Except String (List ClusterRecord) := do
  let b1 ←
    if hasClass c "vnsRsMDevAtt" then
      match getAttr c "vnsRsMDevAtt" "tDn" with
      | none => Except.error "KeyError"
      | some tDn => pure (tDn == panosDn12)
    else pure false
  if b1 then
    match getAttr c "vnsRsMDevAtt" "dn" with
    | none => Except.error "KeyError"
    | some dn =>
      match clusterNameOfDn dn with
      | none => Except.error "IndexError"
      | some nm => pure [emitLDevVip nm panosDn13]
  else
    let b2 ←
      if hasClass c "vnsRsDevMgrToMDevMgr" then
        match getAttr c "vnsRsDevMgrToMDevMgr" "tDn" with
        | none => Except.error "KeyError"
        | some tDn => pure (tDn == panoramaDn12)
      else pure false
    if b2 then
      Except.error "AttributeError: dict object has no attribute name"
    else
      let b3 ←
        if hasClass c "vnsRsChassisToMChassis" then
          match getAttr c "vnsRsChassisToMChassis" "tDn" with
          | none => Except.error "KeyError"
          | some tDn => pure (tDn == chassisDn12)
        else pure false
      if b3 then
        Except.error "AttributeError: dict object has no attribute name"
      else pure []

/-- migrate_clusters over the record list (migrator.py lines 260-279):
matched records contribute fragments to the result list, unmatched records
contribute nothing; a Python exception aborts the function. -/
def migrate_clusters (cs : List ClusterRecord) : Except String (List ClusterRecord) :=
  cs.foldlM (fun acc c => do pure (acc ++ (← migrateClusterRecord c))) []

/-- One record of revert_clusters (migrator.py lines 389-405).  Unlike
migrate_clusters, the first branch reads cluster[vnsRsMDevAtt] without
first testing key membership, so a record lacking that class raises
KeyError. -/
def revertClusterRecord (c : ClusterRecord) : Except String (List ClusterRecord) := do
  let b1 ←
    match getAttr c "vnsRsMDevAtt" "tDn" with
    | none => Except.error "KeyError"
    | some tDn => pure (tDn == panosDn13)
  if b1 then
    match getAttr c "vnsRsMDevAtt" "dn" with
    | none => Except.error "KeyError"
    | some dn =>
      match clusterNameOfDn dn with
      | none => Except.error "IndexError"
      | some nm => pure [emitLDevVip nm panosDn12]
  else
    let b2 ←
      if hasClass c "vnsRsDevMgrToMDevMgr" then
        match getAttr c "vnsRsDevMgrToMDevMgr" "tDn" with
        | none => Except.error "KeyError"
        | some tDn => pure (tDn == panoramaDn13)
      else pure false
    if b2 then
      Except.error "AttributeError: dict object has no attribute name"
    else
      let b3 ←
        if hasClass c "vnsRsChassisToMChassis" then
          match getAttr c "vnsRsChassisToMChassis" "tDn" with
          | none => Except.error "KeyError"
          | some tDn => pure (tDn == chassisDn13)
        else pure false
      if b3 then
        Except.error "AttributeError: dict object has no attribute name"
      else pure []

/-- revert_clusters over the record list (migrator.py lines 387-406). -/
def revert_clusters (cs : List ClusterRecord) : Except String (List ClusterRecord) :=
  cs.foldlM (fun acc c => do pure (acc ++ (← revertClusterRecord c))) []

/-- The action flags and name arguments of one invocation
(parse_args, migrator.py lines 22-53); hasTenant and hasApp model whether
the tenant and app name options were supplied. -/
structure Args where
  parameters : Bool
  clusters : Bool
  revert : Bool
  cleanup : Bool
  hasTenant : Bool
  hasApp : Bool
deriving DecidableEq

/-- Result of parse_args: either sys.exit with a code, or the parsed args
handed to main. -/
inductive ParseOutcome where
  | exited (code : Nat)
  | parsed (a : Args)
deriving DecidableEq

/-- parse_args validation (migrator.py lines 35-53).  When tenant or app is
missing the args are returned unvalidated (line 35-37); otherwise the four
flag checks each sys.exit(1). -/
def parse_args (a : Args) : ParseOutcome :=
  if !a.hasTenant || !a.hasApp then .parsed a
  else if !a.parameters && !a.clusters && !a.cleanup && !a.revert then .exited 1
  else if a.revert && (!a.parameters && !a.clusters) then .exited 1
  else if a.revert && a.cleanup then .exited 1
  else if a.cleanup && (a.parameters || a.clusters) then .exited 1
  else .parsed a

/-- main reaches the tree-work section (migrator.py lines 409-457) only if
parse_args returned, a tenant name was given (line 419-423 exits listing
tenants otherwise) and, for parameters/cleanup actions, an app name was
given (lines 433-437 exit listing AppProfiles otherwise). -/
def mainReachesTreeWork (a : Args) : Bool :=
  match parse_args a with
  | .exited _ => false
  | .parsed a2 => a2.hasTenant && !((a2.parameters || a2.cleanup) && !a2.hasApp)

/-- main fetches the deep tenant tree (migrator.py lines 450-452) in
exactly these modes. -/
def mainFetchesDeepTree (a : Args) : Bool :=
  mainReachesTreeWork a
    && (a.parameters || a.cleanup || (a.revert && a.parameters))

/-- main runs at least one tree pass (migrator.py lines 459-485) in
exactly these modes. -/
def mainRunsTreePass (a : Args) : Bool :=
  mainReachesTreeWork a
    && ((a.parameters && !a.revert) || (a.cleanup && !a.revert)
        || (a.revert && a.parameters))

/-- A cleanup-only invocation (migrator.py lines 471-472, 500-510) pushes
to the APIC iff it is not a dry run and cleanup_interface_folders reported
a change. -/
def cleanupInvocationPushes (t : Tenant) (appName : String) (dryRun : Bool) : Bool :=
  !dryRun && (cleanup_interface_folders t appName).2

/-- The invalid action-flag combinations named by the spec: cleanup combined
with parameters or clusters, revert combined with cleanup, revert without
parameters or clusters, or no action at all. -/
def invalidActionCombo (a : Args) : Bool :=
  (a.cleanup && (a.parameters || a.clusters)) || (a.revert && a.cleanup)
    || (a.revert && !a.parameters && !a.clusters)
    || (!a.parameters && !a.clusters && !a.revert && !a.cleanup)

/-- One of the three forward passes of migrator.py. -/
inductive ForwardPass where
  | interfaceKeys
  | zonesVlans
  | defaultGateway

def runForwardPass : ForwardPass → Tenant → String → Tenant × Bool
  | .interfaceKeys, t, nm => migrate_interface_folder_keys t nm
  | .zonesVlans, t, nm => migrate_zones_and_vlans t nm
  | .defaultGateway, t, nm => migrate_default_gateway t nm

/-- Run an arbitrary sequence of forward passes. -/
def runForwardSeq (ps : List ForwardPass) (t : Tenant) (nm : String) : Tenant :=
  ps.foldl (fun t p => (runForwardPass p t nm).1) t

/-- The folder at position k of the EPG at position j of the AppProfile at
position i of the tenant tree. -/
def folderAt (t : Tenant) (i j k : Nat) : Option Folder :=
  match t.apps[i]? with
  | none => none
  | some app =>
      match app.epgs[j]? with
      | none => none
      | some e => e.folders[k]?

/-- A backup Folder: identified by the name suffix, and (having been copied
before the key rewrite) still carrying key InterfaceConfig. -/
def isBackupFolder (f : Folder) : Bool :=
  strEndsWith f.name premigrationSuffix && (f.key == "InterfaceConfig")

/-- An EPG none of whose direct child folders already uses a
migration-produced key or a backup name: the state of a tree that has
never been migrated. -/
def epgCleanB (e : EPG) : Bool :=
  e.folders.all
    (fun f => !(isMigratedKey f.key) && !(strEndsWith f.name premigrationSuffix))

/-- The deleted backup copy left behind under an EPG by the revert pass
for a folder that had been migrated. -/
def revertLeftover (f : Folder) : Folder := (makeBackup f).markDeleted

/- Concrete instances used by witnesses and counterexamples. -/

/-- A Layer3InterfaceConfig sub-folder holding a security_zone and a
default_gateway parameter. -/
def layerF : Folder :=
  .mk "lay1" "Layer3InterfaceConfig" "lc" "ld" "lg" "ln" "ls" []
    [⟨"p1", "security_zone", "zoneA", false⟩,
     ⟨"p2", "default_gateway", "10.0.0.1", false⟩] [] false

/-- An InterfaceConfig folder holding layerF. -/
def icF : Folder := .mk "fold1" "InterfaceConfig" "ctr" "dc" "gr" "nd" "sc" [layerF] [] [] false

/-- A tenant with a single EPG holding icF. -/
def t0 : Tenant := ⟨"ten1", [⟨"app1", [⟨"epg1", [icF]⟩]⟩]⟩

/-- A folder that already carries the key Zone before any migration. -/
def zf : Folder := .mk "z1" "Zone" "c" "d" "g" "n" "s" [] [] [] false

/-- A tenant whose only EPG folder is the pre-existing Zone folder zf. -/
def tz : Tenant := ⟨"t", [⟨"a", [⟨"e", [zf]⟩]⟩]⟩

/-- An unrelated folder with a non-migration key. -/
def gf : Folder := .mk "g1" "Other" "c" "d" "g" "n" "s" [] [] [] false

/-- A tenant whose EPG holds an InterfaceConfig folder followed by gf. -/
def t2 : Tenant := ⟨"t", [⟨"a", [⟨"e", [icF, gf]⟩]⟩]⟩

/-- A backup folder (as left by the forward migration) and a tenant
containing it. -/
def backupF : Folder :=
  .mk ("fold1" ++ premigrationSuffix) "InterfaceConfig" ("ctr" ++ premigrationSuffix)
    "dc" "gr" "nd" "sc" [layerF] [] [] false

def tb : Tenant := ⟨"t", [⟨"a", [⟨"e", [backupF]⟩]⟩]⟩

/-- A device-manager association record whose target matches neither
version literal. -/
def devmgrRec : ClusterRecord := [("vnsRsDevMgrToMDevMgr", AJson.mk [("tDn", "x")] [])]

/-- A device-package attachment record of the shape returned by the APIC
flat query. -/
def mdevRec (tDn dn : String) : ClusterRecord :=
  [("vnsRsMDevAtt", AJson.mk [("tDn", tDn), ("dn", dn)] [])]

/- Helper lemmas about the string operations. -/

theorem strEndsWith_append (s t : String) : strEndsWith (s ++ t) t = true := by
  unfold strEndsWith
  rw [String.data_append, List.isSuffixOf_iff_suffix]
  exact List.suffix_append _ _

theorem strDropRight_append13 (s : String) :
    strDropRight (s ++ premigrationSuffix) 13 = s := by
  unfold strDropRight
  rw [String.data_append, List.length_append]
  have h13 : premigrationSuffix.data.length = 13 := rfl
  rw [h13, Nat.add_sub_cancel, List.take_left]

/- Helper lemmas about Folder transformations. -/

theorem Folder.markDeleted_key (f : Folder) : f.markDeleted.key = f.key := by
  cases f; rfl

theorem Folder.markDeleted_name (f : Folder) : f.markDeleted.name = f.name := by
  cases f; rfl

theorem Folder.withSubfolders_key (f : Folder) (sf : List Folder) :
    (f.withSubfolders sf).key = f.key := by
  cases f; rfl

theorem Folder.withSubfolders_name (f : Folder) (sf : List Folder) :
    (f.withSubfolders sf).name = f.name := by
  cases f; rfl

theorem makeBackup_key (f : Folder) : (makeBackup f).key = f.key := by
  cases f; rfl

theorem makeBackup_name (f : Folder) :
    (makeBackup f).name = f.name ++ premigrationSuffix := by
  cases f; rfl

theorem migrateFolder_key (f : Folder) : (migrateFolder f).key = "Interface" := by
  cases f; rfl

theorem restoreFolder_makeBackup (f : Folder) : restoreFolder (makeBackup f) = f := by
  cases f with
  | mk n k c d g nd sc sf ps rs del =>
      show Folder.mk (strDropRight (n ++ premigrationSuffix) 13) k
        (strDropRight (c ++ premigrationSuffix) 13) d g nd sc sf ps rs del = _
      rw [strDropRight_append13, strDropRight_append13]

theorem makeBackup_not_needsMigration (f : Folder) :
    folderNeedsMigration (makeBackup f) = false := by
  unfold folderNeedsMigration
  rw [makeBackup_name, strEndsWith_append]
  simp

theorem migrateFolder_not_needsMigration (f : Folder) :
    folderNeedsMigration (migrateFolder f) = false := by
  unfold folderNeedsMigration
  rw [migrateFolder_key]
  simp

theorem zvFolder_of_ne (f : Folder) (h : (f.key == "Interface") = false) :
    zvFolder f = (f, []) := by
  unfold zvFolder
  rw [h]
  simp

theorem dgFolder_of_ne (f : Folder) (h : (f.key == "Interface") = false) :
    dgFolder f = (f, []) := by
  unfold dgFolder
  rw [h]
  simp

theorem zvFolder_fst_key (f : Folder) : ((zvFolder f).1).key = f.key := by
  unfold zvFolder
  cases h : f.key == "Interface" with
  | false => simp [h]
  | true => simp [h, Folder.withSubfolders_key]

theorem dgFolder_fst_key (f : Folder) : ((dgFolder f).1).key = f.key := by
  unfold dgFolder
  cases h : f.key == "Interface" with
  | false => simp [h]
  | true => simp [h, Folder.withSubfolders_key]

/- Helper lemmas about updateFirstApp and tenantPass. -/

theorem find?_updateFirstApp (l : List AppProfile) (nm : String) (app na : AppProfile)
    (hfind : l.find? (fun a => a.name == nm) = some app) (hna : na.name = app.name) :
    (updateFirstApp l nm na).find? (fun a => a.name == nm) = some na := by
  induction l with
  | nil => simp [List.find?] at hfind
  | cons a as ih =>
      cases h : (a.name == nm) with
      | true =>
          rw [List.find?_cons_of_pos (p := fun a => a.name == nm) as h] at hfind
          injection hfind with hfind
          subst hfind
          have hna2 : (na.name == nm) = true := by rw [hna]; exact h
          rw [show updateFirstApp (a :: as) nm na = na :: as by simp [updateFirstApp, h]]
          exact List.find?_cons_of_pos (p := fun a => a.name == nm) as hna2
      | false =>
          rw [List.find?_cons_of_neg (p := fun a => a.name == nm) as (by simp [h])] at hfind
          rw [show updateFirstApp (a :: as) nm na = a :: updateFirstApp as nm na by
            simp [updateFirstApp, h]]
          rw [List.find?_cons_of_neg (p := fun x => x.name == nm) (a := a)
            (updateFirstApp as nm na) (by simp [h])]
          exact ih hfind

theorem updateFirstApp_collapse (l : List AppProfile) (nm : String) (na nb : AppProfile)
    (hna : (na.name == nm) = true) :
    updateFirstApp (updateFirstApp l nm na) nm nb = updateFirstApp l nm nb := by
  induction l with
  | nil => rfl
  | cons a as ih =>
      cases h : (a.name == nm) with
      | true => simp [updateFirstApp, h, hna]
      | false => simp [updateFirstApp, h, ih]

theorem updateFirstApp_self (l : List AppProfile) (nm : String) (app : AppProfile)
    (hfind : l.find? (fun a => a.name == nm) = some app) :
    updateFirstApp l nm app = l := by
  induction l with
  | nil => simp [List.find?] at hfind
  | cons a as ih =>
      cases h : (a.name == nm) with
      | true =>
          rw [List.find?_cons_of_pos (p := fun a => a.name == nm) as h] at hfind
          injection hfind with hfind
          subst hfind
          simp [updateFirstApp, h]
      | false =>
          rw [List.find?_cons_of_neg (p := fun a => a.name == nm) as (by simp [h])] at hfind
          simp [updateFirstApp, h, ih hfind]

theorem tenantPass_fst_comp (f g : EPG → EPG × Bool) (t : Tenant) (nm : String) :
    (tenantPass g (tenantPass f t nm).1 nm).1
      = (tenantPass (fun e => g (f e).1) t nm).1 := by
  unfold tenantPass
  cases hfind : t.apps.find? (fun a => a.name == nm) with
  | none => simp [hfind]
  | some app =>
      have hname : (app.name == nm) = true := by
        have := List.find?_some hfind
        simpa using this
      have h2 := find?_updateFirstApp t.apps nm app
        ⟨app.name, (app.epgs.map f).map Prod.fst⟩ hfind rfl
      simp only [hfind, h2]
      have hcoll := updateFirstApp_collapse t.apps nm
        (AppProfile.mk app.name ((app.epgs.map f).map Prod.fst))
        (AppProfile.mk app.name
          ((((app.epgs.map f).map Prod.fst).map g).map Prod.fst))
        hname
      rw [hcoll]
      have hl : ((((app.epgs.map f).map Prod.fst).map g).map Prod.fst)
          = (app.epgs.map (fun e => g (f e).1)).map Prod.fst := by
        simp only [List.map_map]
        rfl
      rw [hl]

theorem tenantPass_eq_self (pE : EPG → EPG × Bool) (t : Tenant) (nm : String)
    (h : ∀ app, t.apps.find? (fun a => a.name == nm) = some app →
          ∀ e ∈ app.epgs, pE e = (e, false)) :
    tenantPass pE t nm = (t, false) := by
  unfold tenantPass
  cases hfind : t.apps.find? (fun a => a.name == nm) with
  | none => rfl
  | some app =>
      have hh := h app hfind
      have hmap : app.epgs.map pE = app.epgs.map (fun e => (e, false)) :=
        List.map_congr_left hh
      show ((⟨t.name, updateFirstApp t.apps nm
          ⟨app.name, (app.epgs.map pE).map Prod.fst⟩⟩ : Tenant),
        (app.epgs.map pE).any Prod.snd) = (t, false)
      rw [hmap]
      have h1 : ((app.epgs.map (fun e => (e, false))).map Prod.fst) = app.epgs := by
        rw [List.map_map]
        rw [show (Prod.fst ∘ fun e => ((e : EPG), false)) = id from rfl]
        exact List.map_id app.epgs
      have h2 : ((app.epgs.map (fun e => ((e : EPG), false))).any Prod.snd) = false := by
        rw [List.any_eq_false]
        intro x hx
        rw [List.mem_map] at hx
        obtain ⟨e, _, rfl⟩ := hx
        simp
      rw [h1, h2]
      have happeta : (⟨app.name, app.epgs⟩ : AppProfile) = app := rfl
      rw [happeta, updateFirstApp_self t.apps nm app hfind]

theorem tenantPass_none (pE : EPG → EPG × Bool) (t : Tenant) (nm : String)
    (h : t.apps.find? (fun a => a.name == nm) = none) :
    tenantPass pE t nm = (t, false) := by
  unfold tenantPass
  rw [h]

/- Per-EPG no-op lemmas. -/

theorem cleanupEpg_noop (e : EPG) (h : ∀ f ∈ e.folders, isCleanupTarget f = false) :
    cleanupEpg e = (e, false) := by
  have hm : e.folders.filter isCleanupTarget = [] :=
    List.filter_eq_nil_iff.mpr fun f hf => by simp [h f hf]
  have hmap : e.folders.map (fun f => if isCleanupTarget f then f.markDeleted else f)
      = e.folders := by
    have h2 := List.map_congr_left (l := e.folders)
      (f := fun f => if isCleanupTarget f then f.markDeleted else f) (g := id)
      (fun f hf => by simp [h f hf])
    simpa using h2
  show ((⟨e.name,
      e.folders.map (fun f => if isCleanupTarget f then f.markDeleted else f)⟩ : EPG),
    !(e.folders.filter isCleanupTarget).isEmpty) = (e, false)
  rw [hm, hmap]
  rfl

theorem migrateIFKeysEpg_noop (e : EPG)
    (h : ∀ f ∈ e.folders, folderNeedsMigration f = false) :
    migrateIFKeysEpg e = (e, false) := by
  have hm : e.folders.filter folderNeedsMigration = [] :=
    List.filter_eq_nil_iff.mpr fun f hf => by simp [h f hf]
  have hmap : e.folders.map (fun f => if folderNeedsMigration f then migrateFolder f else f)
      = e.folders := by
    have h2 := List.map_congr_left (l := e.folders)
      (f := fun f => if folderNeedsMigration f then migrateFolder f else f) (g := id)
      (fun f hf => by simp [h f hf])
    simpa using h2
  show ((⟨e.name,
      e.folders.map (fun f => if folderNeedsMigration f then migrateFolder f else f)
        ++ (e.folders.filter folderNeedsMigration).map makeBackup⟩ : EPG),
    !(e.folders.filter folderNeedsMigration).isEmpty) = (e, false)
  rw [hm, hmap]
  rw [show List.map makeBackup ([] : List Folder) = [] from rfl, List.append_nil]
  rfl

theorem migrateIFKeysEpg_no_rematch (e : EPG) :
    ∀ f ∈ ((migrateIFKeysEpg e).1).folders, folderNeedsMigration f = false := by
  intro f hf
  have hf2 : f ∈ e.folders.map
      (fun f => if folderNeedsMigration f then migrateFolder f else f)
      ++ (e.folders.filter folderNeedsMigration).map makeBackup := hf
  rw [List.mem_append] at hf2
  cases hf2 with
  | inl h1 =>
      rw [List.mem_map] at h1
      obtain ⟨g, _, rfl⟩ := h1
      cases hng : folderNeedsMigration g with
      | true => simp [hng, migrateFolder_not_needsMigration]
      | false => simp [hng]
  | inr h2 =>
      rw [List.mem_map] at h2
      obtain ⟨g, _, rfl⟩ := h2
      exact makeBackup_not_needsMigration g

/-- C5: for a direct child Folder of a migrated interface Folder whose key
is Layer3InterfaceConfig or Layer2InterfaceConfig, the key rewrite of the
interface-folder key rename pass (keeping the first 15 key characters)
equals removing the trailing Config suffix, yielding Layer3Interface or
Layer2Interface respectively. -/
theorem C5_subfolder_key_truncation (sf : Folder)
    (h : sf.key = "Layer3InterfaceConfig" ∨ sf.key = "Layer2InterfaceConfig") :
    (migrateSubfolderKey sf).key = strDropRight sf.key 6
      ∧ (sf.key = "Layer3InterfaceConfig" →
          (migrateSubfolderKey sf).key = "Layer3Interface")
      ∧ (sf.key = "Layer2InterfaceConfig" →
          (migrateSubfolderKey sf).key = "Layer2Interface") := by
  cases sf with
  | mk n k c d g nd sc sfs ps rs del =>
      cases h with
      | inl h1 =>
          simp only [Folder.key] at h1
          subst h1
          refine ⟨?_, fun _ => ?_, fun hk => ?_⟩
          · simp [migrateSubfolderKey, Folder.key]
            decide
          · simp [migrateSubfolderKey, Folder.key]
            decide
          · simp [Folder.key] at hk
      | inr h1 =>
          simp only [Folder.key] at h1
          subst h1
          refine ⟨?_, fun hk => ?_, fun _ => ?_⟩
          · simp [migrateSubfolderKey, Folder.key]
            decide
          · simp [Folder.key] at hk
          · simp [migrateSubfolderKey, Folder.key]
            decide

/-- C5 witness: the truncation theorem applied to the concrete
Layer3InterfaceConfig sub-folder layerF. -/
theorem C5_subfolder_key_truncation_witness :
    (layerF.key = "Layer3InterfaceConfig" ∨ layerF.key = "Layer2InterfaceConfig")
    ∧ ((migrateSubfolderKey layerF).key = strDropRight layerF.key 6
       ∧ (layerF.key = "Layer3InterfaceConfig" →
           (migrateSubfolderKey layerF).key = "Layer3Interface")
       ∧ (layerF.key = "Layer2InterfaceConfig" →
           (migrateSubfolderKey layerF).key = "Layer2Interface")) :=
  ⟨Or.inl rfl, C5_subfolder_key_truncation layerF (Or.inl rfl)⟩

/-- C10: when the named AppProfile is not a child of the tenant, each of
the six tree passes prints an error, returns False, and leaves the tenant
tree unchanged. -/
theorem C10_missing_app_is_noop (t : Tenant) (appName : String)
    (h : t.apps.find? (fun a => a.name == appName) = none) :
    migrate_interface_folder_keys t appName = (t, false)
    ∧ migrate_zones_and_vlans t appName = (t, false)
    ∧ migrate_default_gateway t appName = (t, false)
    ∧ cleanup_interface_folders t appName = (t, false)
    ∧ delete_migrated_folders t appName = (t, false)
    ∧ revert_interface_folders t appName = (t, false) :=
  ⟨tenantPass_none _ t appName h, tenantPass_none _ t appName h,
   tenantPass_none _ t appName h, tenantPass_none _ t appName h,
   tenantPass_none _ t appName h, tenantPass_none _ t appName h⟩

/-- C10 witness: the tenant t0 has no AppProfile named nosuch, and all six
passes leave it unchanged reporting False. -/
theorem C10_missing_app_is_noop_witness :
    t0.apps.find? (fun a => a.name == "nosuch") = none
    ∧ (migrate_interface_folder_keys t0 "nosuch" = (t0, false)
       ∧ migrate_zones_and_vlans t0 "nosuch" = (t0, false)
       ∧ migrate_default_gateway t0 "nosuch" = (t0, false)
       ∧ cleanup_interface_folders t0 "nosuch" = (t0, false)
       ∧ delete_migrated_folders t0 "nosuch" = (t0, false)
       ∧ revert_interface_folders t0 "nosuch" = (t0, false)) :=
  ⟨by decide, C10_missing_app_is_noop t0 "nosuch" (by decide)⟩

/-- C7: on a tree with no InterfaceConfig folder carrying the backup
suffix, cleanup_interface_folders marks nothing deleted, leaves the tree
unchanged, returns False, and consequently the cleanup invocation pushes
nothing to the APIC. -/
theorem C7_cleanup_noop (t : Tenant) (appName : String) (dryRun : Bool)
    (h : ∀ app ∈ t.apps, ∀ e ∈ app.epgs, ∀ f ∈ e.folders, isCleanupTarget f = false) :
    cleanup_interface_folders t appName = (t, false)
    ∧ cleanupInvocationPushes t appName dryRun = false := by
  have hc : cleanup_interface_folders t appName = (t, false) := by
    unfold cleanup_interface_folders
    apply tenantPass_eq_self
    intro app hfind e he
    exact cleanupEpg_noop e (h app (List.mem_of_find?_eq_some hfind) e he)
  refine ⟨hc, ?_⟩
  unfold cleanupInvocationPushes
  rw [hc]
  simp

/-- C7 witness: the cleanup no-op theorem applied to the concrete tenant
t0, which has no backup-suffixed folder. -/
theorem C7_cleanup_noop_witness :
    (∀ app ∈ t0.apps, ∀ e ∈ app.epgs, ∀ f ∈ e.folders, isCleanupTarget f = false)
    ∧ (cleanup_interface_folders t0 "app1" = (t0, false)
       ∧ cleanupInvocationPushes t0 "app1" false = false) :=
  ⟨by decide, C7_cleanup_noop t0 "app1" false (by decide)⟩

/-- C3: running the interface-folder key rename pass a second time on the
result of a first run changes nothing: the tree after the second run
equals the tree after the first run and the second run returns False. -/
theorem C3_interface_key_pass_idempotent (t : Tenant) (appName : String) :
    migrate_interface_folder_keys
        (migrate_interface_folder_keys t appName).1 appName
      = ((migrate_interface_folder_keys t appName).1, false) := by
  unfold migrate_interface_folder_keys
  cases hfind : t.apps.find? (fun a => a.name == appName) with
  | none =>
      have ht1 : tenantPass migrateIFKeysEpg t appName = (t, false) :=
        tenantPass_none _ t appName hfind
      rw [ht1]
      exact ht1
  | some app =>
      have ht1 : (tenantPass migrateIFKeysEpg t appName).1
          = ⟨t.name, updateFirstApp t.apps appName
              ⟨app.name, (app.epgs.map migrateIFKeysEpg).map Prod.fst⟩⟩ := by
        unfold tenantPass
        rw [hfind]
      have happ1 : ((tenantPass migrateIFKeysEpg t appName).1).apps.find?
          (fun a => a.name == appName)
          = some ⟨app.name, (app.epgs.map migrateIFKeysEpg).map Prod.fst⟩ := by
        rw [ht1]
        exact find?_updateFirstApp t.apps appName app _ hfind rfl
      apply tenantPass_eq_self
      intro app2 hfind2 e he
      rw [happ1] at hfind2
      injection hfind2 with hfind2
      subst hfind2
      rw [List.map_map, List.mem_map] at he
      obtain ⟨e0, _, rfl⟩ := he
      exact migrateIFKeysEpg_noop _ (migrateIFKeysEpg_no_rematch e0)

/-- C8 counterexample: with cleanup and parameters both selected (an
invalid combination) but no tenant name supplied, parse_args returns the
arguments unvalidated (migrator.py line 35-37) instead of rejecting the
invocation. -/
theorem C8_counterexample :
    invalidActionCombo ⟨true, false, false, true, false, false⟩ = true
    ∧ parse_args ⟨true, false, false, true, false, false⟩
        = ParseOutcome.parsed ⟨true, false, false, true, false, false⟩ := by
  decide

/-- C8 (amended): for every invocation whose action flags form an invalid
combination, if both a tenant and an app name were supplied then parse_args
rejects the invocation with exit code 1 before main runs; and in every
case (tenant or app name supplied or not) main never fetches the deep
tenant tree and never runs any tree pass. -/
theorem C8_invalid_combo_never_reaches_tree (p c r cl ht ha : Bool)
    (h : invalidActionCombo ⟨p, c, r, cl, ht, ha⟩ = true) :
    (ht = true → ha = true →
        parse_args ⟨p, c, r, cl, ht, ha⟩ = ParseOutcome.exited 1)
    ∧ mainRunsTreePass ⟨p, c, r, cl, ht, ha⟩ = false
    ∧ mainFetchesDeepTree ⟨p, c, r, cl, ht, ha⟩ = false := by
  revert h
  cases p <;> cases c <;> cases r <;> cases cl <;> cases ht <;> cases ha <;> decide

/-- C8 witness: the amended theorem applied to the invalid combination
cleanup plus parameters with tenant and app supplied. -/
theorem C8_invalid_combo_witness :
    invalidActionCombo ⟨true, false, false, true, true, true⟩ = true
    ∧ ((true = true → true = true →
          parse_args ⟨true, false, false, true, true, true⟩ = ParseOutcome.exited 1)
       ∧ mainRunsTreePass ⟨true, false, false, true, true, true⟩ = false
       ∧ mainFetchesDeepTree ⟨true, false, false, true, true, true⟩ = false) :=
  ⟨by decide, C8_invalid_combo_never_reaches_tree true false false true true true (by decide)⟩

/-- C4: at the failing input, a device-manager association record whose
target string matches neither version literal: migrate_clusters ignores it
and returns an empty output list, but revert_clusters reads
cluster[vnsRsMDevAtt] without a membership guard (migrator.py line 390)
and raises KeyError instead of ignoring the record. -/
theorem C4_revert_clusters_keyerror :
    migrate_clusters [devmgrRec] = Except.ok []
    ∧ revert_clusters [devmgrRec] = Except.error "KeyError" := by
  decide

/-- C6 counterexample: the record emitted by the forward cluster migration
is a vnsLDevVip fragment; feeding that emitted record to revert_clusters
raises KeyError (no vnsRsMDevAtt key at top level) instead of yielding a
version-1.2 target. -/
theorem C6_counterexample :
    migrate_clusters [mdevRec panosDn12 "uni/tn-t1/lDevVip-cl1/rsmDevAtt"]
      = Except.ok [emitLDevVip "cl1" panosDn13]
    ∧ revert_clusters [emitLDevVip "cl1" panosDn13] = Except.error "KeyError" := by
  decide

/-- C6 (amended): for every device-package attachment record with target
PANOS-1.2 and a well-formed dn, the forward cluster migration emits a
fragment whose target is PANOS-1.3, and the revert cluster migration
applied to the re-fetched attachment record bearing PANOS-1.3 emits the
same fragment with target PANOS-1.2: the two target-string mappings are
exact inverses on the matched literals. -/
theorem C6_cluster_target_roundtrip (dn seg : String)
    (h : (strSplit dn '/')[2]? = some seg) :
    migrate_clusters [mdevRec panosDn12 dn]
      = Except.ok [emitLDevVip (strDrop seg 8) panosDn13]
    ∧ revert_clusters [mdevRec panosDn13 dn]
      = Except.ok [emitLDevVip (strDrop seg 8) panosDn12] := by
  constructor
  · simp [migrate_clusters, migrateClusterRecord, mdevRec, hasClass, getAttr, getClass,
      clusterNameOfDn, h, List.find?, panosDn12, panosDn13]
    rfl
  · simp [revert_clusters, revertClusterRecord, mdevRec, hasClass, getAttr, getClass,
      clusterNameOfDn, h, List.find?, panosDn12, panosDn13]
    rfl

/- Lemmas for the C2 round-trip analysis. -/

theorem not_migrated_not_interface {k : String} (h : isMigratedKey k = false) :
    (k == "Interface") = false := by
  unfold isMigratedKey at h
  cases hq : (k == "Interface") with
  | false => rfl
  | true => rw [hq] at h; simp at h

theorem filter_not_migrated_map_marked (l : List Folder) :
    (l.map (fun f => if isMigratedKey f.key then f.markDeleted else f)).filter
        (fun f => !(isMigratedKey f.key))
      = l.filter (fun f => !(isMigratedKey f.key)) := by
  induction l with
  | nil => rfl
  | cons a as ih =>
      cases h : isMigratedKey a.key with
      | true => simp [List.filter_cons, h, Folder.markDeleted_key, ih]
      | false => simp [List.filter_cons, h, ih]

theorem filter_not_migrated_map_keyfix (g : Folder → Folder)
    (hkey : ∀ f, (g f).key = f.key)
    (hfix : ∀ f, isMigratedKey f.key = false → g f = f) (l : List Folder) :
    (l.map g).filter (fun f => !(isMigratedKey f.key))
      = l.filter (fun f => !(isMigratedKey f.key)) := by
  induction l with
  | nil => rfl
  | cons a as ih =>
      cases h : isMigratedKey a.key with
      | true => simp [List.filter_cons, hkey, h, ih]
      | false => simp [List.filter_cons, hkey, h, hfix a h, ih]

theorem zvFolder_snd_shape (f : Folder) (h : (f.key == "Interface") = true) :
    (zvFolder f).2 = ((f.subfolders.map (zvLayer f)).map Prod.snd).flatten := by
  simp [zvFolder, h]

theorem zvLayer_snd_shape (f lf : Folder) (h : isLayerKey lf.key = true) :
    (zvLayer f lf).2 = (lf.params.filter isZVParam).map (newZVFolder f lf) := by
  simp [zvLayer, h]

theorem newZVFolder_key_migrated (f lf : Folder) (p : Parameter)
    (h : isZVParam p = true) : isMigratedKey ((newZVFolder f lf p).key) = true := by
  cases hbd : (p.key == "bridge_domain") with
  | true => simp [newZVFolder, hbd, Folder.key, isMigratedKey]
  | false =>
      have hsz : (p.key == "security_zone") = true := by
        unfold isZVParam at h
        rw [hbd] at h
        simpa using h
      simp [newZVFolder, hbd, hsz, Folder.key, isMigratedKey]

theorem zvFolder_snd_migrated (f : Folder) :
    ∀ x ∈ (zvFolder f).2, isMigratedKey x.key = true := by
  intro x hx
  cases hq : (f.key == "Interface") with
  | false => rw [zvFolder_of_ne f hq] at hx; simp at hx
  | true =>
      rw [zvFolder_snd_shape f hq] at hx
      rw [List.mem_flatten] at hx
      obtain ⟨s, hs, hxs⟩ := hx
      rw [List.mem_map] at hs
      obtain ⟨pr, hpr, rfl⟩ := hs
      rw [List.mem_map] at hpr
      obtain ⟨lf, _, rfl⟩ := hpr
      cases hl : isLayerKey lf.key with
      | false =>
          have : (zvLayer f lf).2 = [] := by simp [zvLayer, hl]
          rw [this] at hxs
          simp at hxs
      | true =>
          rw [zvLayer_snd_shape f lf hl] at hxs
          rw [List.mem_map] at hxs
          obtain ⟨p, hp, rfl⟩ := hxs
          rw [List.mem_filter] at hp
          exact newZVFolder_key_migrated f lf p hp.2

theorem dgFolder_snd_migrated (f : Folder) :
    ∀ x ∈ (dgFolder f).2, isMigratedKey x.key = true := by
  intro x hx
  cases hq : (f.key == "Interface") with
  | false => rw [dgFolder_of_ne f hq] at hx; simp at hx
  | true =>
      have hshape : (dgFolder f).2 = ((f.subfolders.map (dgLayer f)).map Prod.snd).flatten := by
        simp [dgFolder, hq]
      rw [hshape] at hx
      rw [List.mem_flatten] at hx
      obtain ⟨s, hs, hxs⟩ := hx
      rw [List.mem_map] at hs
      obtain ⟨pr, hpr, rfl⟩ := hs
      rw [List.mem_map] at hpr
      obtain ⟨lf, _, rfl⟩ := hpr
      cases hl : isLayerKey lf.key with
      | false =>
          have h0 : (dgLayer f lf).2 = [] := by simp [dgLayer, hl]
          rw [h0] at hxs
          simp at hxs
      | true =>
          have h1 : (dgLayer f lf).2
              = (lf.params.filter (fun p => p.key == "default_gateway")).map
                  (newStaticRouteFolder f) := by
            simp [dgLayer, hl]
          rw [h1] at hxs
          rw [List.mem_map] at hxs
          obtain ⟨p, _, rfl⟩ := hxs
          simp [newStaticRouteFolder, Folder.key, isMigratedKey]

theorem zv_new_filter_nil (l : List Folder) :
    (((l.map zvFolder).map Prod.snd).flatten).filter
        (fun f => !(isMigratedKey f.key)) = [] := by
  rw [List.filter_eq_nil_iff]
  intro x hx
  rw [List.mem_flatten] at hx
  obtain ⟨s, hs, hxs⟩ := hx
  rw [List.mem_map] at hs
  obtain ⟨pr, hpr, rfl⟩ := hs
  rw [List.mem_map] at hpr
  obtain ⟨f, _, rfl⟩ := hpr
  have := zvFolder_snd_migrated f x hxs
  simp [this]

theorem dg_new_filter_nil (l : List Folder) :
    (((l.map dgFolder).map Prod.snd).flatten).filter
        (fun f => !(isMigratedKey f.key)) = [] := by
  rw [List.filter_eq_nil_iff]
  intro x hx
  rw [List.mem_flatten] at hx
  obtain ⟨s, hs, hxs⟩ := hx
  rw [List.mem_map] at hs
  obtain ⟨pr, hpr, rfl⟩ := hs
  rw [List.mem_map] at hpr
  obtain ⟨f, _, rfl⟩ := hpr
  have := dgFolder_snd_migrated f x hxs
  simp [this]

theorem isMigratedKey_interface : isMigratedKey "Interface" = true := rfl

theorem map_ifk_filter (l : List Folder)
    (hk : ∀ f ∈ l, isMigratedKey f.key = false) :
    (l.map (fun f => if folderNeedsMigration f then migrateFolder f else f)).filter
        (fun f => !(isMigratedKey f.key))
      = l.filter (fun f => !(folderNeedsMigration f)) := by
  induction l with
  | nil => rfl
  | cons a as ih =>
      have ha := hk a (List.mem_cons_self a as)
      have ih2 := ih (fun f hf => hk f (List.mem_cons_of_mem a hf))
      cases h : folderNeedsMigration a with
      | true => simp [List.filter_cons, h, migrateFolder_key, isMigratedKey_interface, ih2]
      | false => simp [List.filter_cons, h, ha, ih2]

theorem backup_mem_props (l : List Folder) :
    ∀ b ∈ (l.filter folderNeedsMigration).map makeBackup,
      isMigratedKey b.key = false ∧ strEndsWith b.name premigrationSuffix = true := by
  intro b hb
  rw [List.mem_map] at hb
  obtain ⟨f, hf, rfl⟩ := hb
  rw [List.mem_filter] at hf
  obtain ⟨_, hneeds⟩ := hf
  have hkeq : f.key = "InterfaceConfig" := by
    unfold folderNeedsMigration at hneeds
    rw [Bool.and_eq_true] at hneeds
    have := hneeds.1
    simpa using this
  constructor
  · rw [makeBackup_key, hkeq]
    decide
  · rw [makeBackup_name]
    exact strEndsWith_append _ _

theorem migrateZVEpg_fst (e : EPG) :
    (migrateZVEpg e).1 = ⟨e.name, e.folders.map (fun f => (zvFolder f).1)
        ++ ((e.folders.map zvFolder).map Prod.snd).flatten⟩ := by
  show (⟨e.name, (e.folders.map zvFolder).map Prod.fst
      ++ ((e.folders.map zvFolder).map Prod.snd).flatten⟩ : EPG) = _
  rw [List.map_map]
  rfl

theorem migrateDGEpg_fst (e : EPG) :
    (migrateDGEpg e).1 = ⟨e.name, e.folders.map (fun f => (dgFolder f).1)
        ++ ((e.folders.map dgFolder).map Prod.snd).flatten⟩ := by
  show (⟨e.name, (e.folders.map dgFolder).map Prod.fst
      ++ ((e.folders.map dgFolder).map Prod.snd).flatten⟩ : EPG) = _
  rw [List.map_map]
  rfl

theorem migrateZVEpg_fst_mk (n : String) (L : List Folder) :
    (migrateZVEpg ⟨n, L⟩).1
      = ⟨n, L.map (fun f => (zvFolder f).1)
          ++ ((L.map zvFolder).map Prod.snd).flatten⟩ :=
  migrateZVEpg_fst _

theorem migrateDGEpg_fst_mk (n : String) (L : List Folder) :
    (migrateDGEpg ⟨n, L⟩).1
      = ⟨n, L.map (fun f => (dgFolder f).1)
          ++ ((L.map dgFolder).map Prod.snd).flatten⟩ :=
  migrateDGEpg_fst _

theorem deleteMigratedEpg_fst_mk (n : String) (L : List Folder) :
    (deleteMigratedEpg ⟨n, L⟩).1
      = ⟨n, L.map (fun f => if isMigratedKey f.key then f.markDeleted else f)⟩ := rfl

theorem revertEpg_fst_mk (n : String) (L : List Folder) :
    (revertEpg ⟨n, L⟩).1
      = ⟨n, (L.filter (fun f => !(isMigratedKey f.key))).map
            (fun f => if strEndsWith f.name premigrationSuffix then restoreFolder f else f)
          ++ ((L.filter (fun f => !(isMigratedKey f.key))).filter
                (fun f => strEndsWith f.name premigrationSuffix)).map
              Folder.markDeleted⟩ := rfl

theorem filter_P_after_zv (L : List Folder) :
    ((L.map (fun f => (zvFolder f).1)
        ++ ((L.map zvFolder).map Prod.snd).flatten).filter
          (fun f => !(isMigratedKey f.key)))
      = L.filter (fun f => !(isMigratedKey f.key)) := by
  rw [List.filter_append, zv_new_filter_nil, List.append_nil,
    filter_not_migrated_map_keyfix _ zvFolder_fst_key
      (fun f hf => by rw [zvFolder_of_ne f (not_migrated_not_interface hf)])]

theorem filter_P_after_dg (L : List Folder) :
    ((L.map (fun f => (dgFolder f).1)
        ++ ((L.map dgFolder).map Prod.snd).flatten).filter
          (fun f => !(isMigratedKey f.key)))
      = L.filter (fun f => !(isMigratedKey f.key)) := by
  rw [List.filter_append, dg_new_filter_nil, List.append_nil,
    filter_not_migrated_map_keyfix _ dgFolder_fst_key
      (fun f hf => by rw [dgFolder_of_ne f (not_migrated_not_interface hf)])]

/-- The heart of the round-trip property: on a clean EPG (no folder with a
migration-produced key or a backup name), the three forward passes
followed by delete-migrated and restore-backups reproduce the original
folders, reordered with the non-migrated folders first, plus one
soft-deleted backup copy per migrated folder. -/
theorem roundEpg_clean (e : EPG) (hc : epgCleanB e = true) :
    (revertEpg (deleteMigratedEpg (migrateDGEpg (migrateZVEpg
        (migrateIFKeysEpg e).1).1).1).1).1
      = ⟨e.name, e.folders.filter (fun f => !(folderNeedsMigration f))
          ++ e.folders.filter folderNeedsMigration
          ++ (e.folders.filter folderNeedsMigration).map revertLeftover⟩ := by
  have hall := List.all_eq_true.mp hc
  have hkeys : ∀ f ∈ e.folders, isMigratedKey f.key = false := by
    intro f hf
    have h1 := hall f hf
    rw [Bool.and_eq_true] at h1
    simpa using h1.1
  have hsuf : ∀ f ∈ e.folders, strEndsWith f.name premigrationSuffix = false := by
    intro f hf
    have h1 := hall f hf
    rw [Bool.and_eq_true] at h1
    simpa using h1.2
  have hBP : ∀ b ∈ (e.folders.filter folderNeedsMigration).map makeBackup,
      (!(isMigratedKey b.key)) = true := by
    intro b hb
    have := (backup_mem_props e.folders b hb).1
    simp [this]
  have hBends : ∀ b ∈ (e.folders.filter folderNeedsMigration).map makeBackup,
      strEndsWith b.name premigrationSuffix = true :=
    fun b hb => (backup_mem_props e.folders b hb).2
  have hAends : ∀ f ∈ e.folders.filter (fun f => !(folderNeedsMigration f)),
      ¬ strEndsWith f.name premigrationSuffix = true := by
    intro f hf
    rw [hsuf f (List.mem_of_mem_filter hf)]
    simp
  have e1 : (migrateIFKeysEpg e).1 = (⟨e.name,
      e.folders.map (fun f => if folderNeedsMigration f then migrateFolder f else f)
        ++ (e.folders.filter folderNeedsMigration).map makeBackup⟩ : EPG) := rfl
  rw [e1, migrateZVEpg_fst_mk, migrateDGEpg_fst_mk, deleteMigratedEpg_fst_mk,
    revertEpg_fst_mk]
  rw [filter_not_migrated_map_marked, filter_P_after_dg, filter_P_after_zv]
  rw [List.filter_append, map_ifk_filter e.folders hkeys,
    List.filter_eq_self.mpr hBP]
  rw [List.filter_append, List.filter_eq_nil_iff.mpr hAends,
    List.filter_eq_self.mpr hBends, List.nil_append]
  rw [List.map_append]
  have hAmap : (e.folders.filter (fun f => !(folderNeedsMigration f))).map
      (fun f => if strEndsWith f.name premigrationSuffix then restoreFolder f else f)
      = e.folders.filter (fun f => !(folderNeedsMigration f)) := by
    have hcg := List.map_congr_left
      (l := e.folders.filter (fun f => !(folderNeedsMigration f)))
      (f := fun f => if strEndsWith f.name premigrationSuffix then restoreFolder f else f)
      (g := id)
      (fun f hf => by
        have h2 := hsuf f (List.mem_of_mem_filter hf)
        simp [h2])
    rw [hcg, List.map_id]
  have hBmap : ((e.folders.filter folderNeedsMigration).map makeBackup).map
      (fun f => if strEndsWith f.name premigrationSuffix then restoreFolder f else f)
      = e.folders.filter folderNeedsMigration := by
    rw [List.map_map]
    have hcg := List.map_congr_left
      (l := e.folders.filter folderNeedsMigration)
      (f := (fun f => if strEndsWith f.name premigrationSuffix then restoreFolder f
          else f) ∘ makeBackup)
      (g := id)
      (fun f _ => by
        have h2 : strEndsWith (makeBackup f).name premigrationSuffix = true := by
          rw [makeBackup_name]
          exact strEndsWith_append _ _
        simp only [Function.comp]
        rw [h2]
        simp [restoreFolder_makeBackup])
    rw [hcg, List.map_id]
  have hCmap : ((e.folders.filter folderNeedsMigration).map makeBackup).map
      Folder.markDeleted
      = (e.folders.filter folderNeedsMigration).map revertLeftover := by
    rw [List.map_map]
    exact List.map_congr_left (fun f _ => rfl)
  rw [hAmap, hBmap, hCmap]

/-- The five tree passes of the migrate-then-revert flow compose into a
single per-EPG transformation. -/
theorem roundtrip_comp (t : Tenant) (nm : String) :
    revertPasses (forwardPasses t nm) nm
      = (tenantPass (fun e => revertEpg (deleteMigratedEpg (migrateDGEpg
          (migrateZVEpg (migrateIFKeysEpg e).1).1).1).1) t nm).1 := by
  show (tenantPass revertEpg (tenantPass deleteMigratedEpg (tenantPass migrateDGEpg
      (tenantPass migrateZVEpg (tenantPass migrateIFKeysEpg t nm).1 nm).1 nm).1 nm).1 nm).1
    = _
  rw [tenantPass_fst_comp migrateIFKeysEpg migrateZVEpg]
  rw [tenantPass_fst_comp _ migrateDGEpg]
  rw [tenantPass_fst_comp _ deleteMigratedEpg]
  rw [tenantPass_fst_comp _ revertEpg]

/-- C2 counterexample: the claim fails as stated.  On the tenant tz, whose
only EPG folder already carries the key Zone, the forward passes make no
backup (no folder needs migration, third conjunct) yet the revert flow
deletes that folder outright, so the result does not equal the
pre-migration tree plus deleted backup copies.  On the tenant t2 the
surviving folders are also reordered relative to the original tree. -/
theorem C2_counterexample :
    revertPasses (forwardPasses tz "a") "a" = ⟨"t", [⟨"a", [⟨"e", []⟩]⟩]⟩
    ∧ tz = ⟨"t", [⟨"a", [⟨"e", [zf]⟩]⟩]⟩
    ∧ (tz.apps.map (fun a => a.epgs.map (fun e => e.folders.filter folderNeedsMigration)))
        = [[[]]]
    ∧ revertPasses (forwardPasses tz "a") "a" ≠ tz
    ∧ revertPasses (forwardPasses t2 "a") "a"
        = ⟨"t", [⟨"a", [⟨"e", [gf, icF, revertLeftover icF]⟩]⟩]⟩
    ∧ t2 = ⟨"t", [⟨"a", [⟨"e", [icF, gf]⟩]⟩]⟩ := by
  decide

/-- C2 (amended): for every tenant tree whose target AppProfile exists and
none of whose EPG folders already uses a migration-produced key
(Interface, Zone, Vlan, StaticRoute) or a backup-suffixed name, the revert
flow applied to the output of the three forward passes (no cleanup in
between) restores the tree up to reordering: everything outside the target
app is unchanged, each EPG keeps its name, each original folder (including
every restored InterfaceConfig folder with its original name,
ctrctNameOrLbl, key, sub-folders and Parameters) reappears exactly, and
the only additions are soft-delete-marked copies of the backup folders:
each EPG's final folder list is a permutation of its original folders plus
those deleted copies. -/
theorem C2_revert_roundtrip (t : Tenant) (nm : String) (app : AppProfile)
    (hfind : t.apps.find? (fun a => a.name == nm) = some app)
    (hclean : ∀ e ∈ app.epgs, epgCleanB e = true) :
    ∃ epgs2,
      revertPasses (forwardPasses t nm) nm
        = ⟨t.name, updateFirstApp t.apps nm ⟨app.name, epgs2⟩⟩
      ∧ List.Forall₂ (fun e e2 =>
          e2.name = e.name
          ∧ e2.folders = e.folders.filter (fun f => !(folderNeedsMigration f))
              ++ e.folders.filter folderNeedsMigration
              ++ (e.folders.filter folderNeedsMigration).map revertLeftover
          ∧ e2.folders.Perm
              (e.folders ++ (e.folders.filter folderNeedsMigration).map revertLeftover))
        app.epgs epgs2 := by
  refine ⟨(app.epgs.map (fun e => revertEpg (deleteMigratedEpg (migrateDGEpg
      (migrateZVEpg (migrateIFKeysEpg e).1).1).1).1)).map Prod.fst, ?_, ?_⟩
  · rw [roundtrip_comp t nm]
    unfold tenantPass
    rw [hfind]
  · rw [List.map_map, List.forall₂_map_right_iff, List.forall₂_same]
    intro e he
    simp only [Function.comp]
    have hre := roundEpg_clean e (hclean e he)
    rw [hre]
    refine ⟨rfl, rfl, ?_⟩
    have h2 := List.filter_append_perm (fun f => !(folderNeedsMigration f)) e.folders
    have h3 : e.folders.filter (fun x => !(!(folderNeedsMigration x)))
        = e.folders.filter folderNeedsMigration :=
      List.filter_congr (fun a _ => by simp)
    rw [h3] at h2
    exact h2.append_right _

/-- C2 witness: the amended round-trip theorem applied to the concrete
clean tenant t2 (one InterfaceConfig folder and one unrelated folder). -/
theorem C2_revert_roundtrip_witness :
    t2.apps.find? (fun a => a.name == "a") = some ⟨"a", [⟨"e", [icF, gf]⟩]⟩
    ∧ (∀ e ∈ (⟨"a", [⟨"e", [icF, gf]⟩] ⟩ : AppProfile).epgs, epgCleanB e = true)
    ∧ (∃ epgs2,
        revertPasses (forwardPasses t2 "a") "a"
          = ⟨t2.name, updateFirstApp t2.apps "a" ⟨"a", epgs2⟩⟩
        ∧ List.Forall₂ (fun e e2 =>
            e2.name = e.name
            ∧ e2.folders = e.folders.filter (fun f => !(folderNeedsMigration f))
                ++ e.folders.filter folderNeedsMigration
                ++ (e.folders.filter folderNeedsMigration).map revertLeftover
            ∧ e2.folders.Perm
                (e.folders ++ (e.folders.filter folderNeedsMigration).map revertLeftover))
          (⟨"a", [⟨"e", [icF, gf]⟩]⟩ : AppProfile).epgs epgs2) :=
  ⟨by decide, by decide,
   C2_revert_roundtrip t2 "a" ⟨"a", [⟨"e", [icF, gf]⟩]⟩ (by decide) (by decide)⟩

/- Positional preservation lemmas for C9. -/

theorem getElem?_map_append {α : Type} {l ex : List α} {g : α → α} {k : Nat} {x : α}
    (hk : l[k]? = some x) : (l.map g ++ ex)[k]? = some (g x) := by
  have hlen : k < l.length := (List.getElem?_eq_some_iff.mp hk).1
  rw [List.getElem?_append]
  rw [if_pos (by simpa using hlen)]
  rw [List.getElem?_map, hk]
  rfl

theorem updateFirstApp_getElem? (l : List AppProfile) (nm : String) (app na : AppProfile)
    (hfind : l.find? (fun a => a.name == nm) = some app) (i : Nat) :
    (updateFirstApp l nm na)[i]? = l[i]?
    ∨ (l[i]? = some app ∧ (updateFirstApp l nm na)[i]? = some na) := by
  induction l generalizing i with
  | nil => left; rfl
  | cons a as ih =>
      cases h : (a.name == nm) with
      | true =>
          rw [List.find?_cons_of_pos (p := fun a => a.name == nm) as h] at hfind
          injection hfind with hfind
          subst hfind
          cases i with
          | zero =>
              right
              constructor
              · exact List.getElem?_cons_zero
              · simp [updateFirstApp, h]
          | succ n =>
              left
              simp [updateFirstApp, h]
      | false =>
          rw [List.find?_cons_of_neg (p := fun a => a.name == nm) as (by simp [h])] at hfind
          cases i with
          | zero =>
              left
              simp [updateFirstApp, h]
          | succ n =>
              have hrec := ih hfind n
              rw [show updateFirstApp (a :: as) nm na = a :: updateFirstApp as nm na by
                simp [updateFirstApp, h]]
              rw [List.getElem?_cons_succ, List.getElem?_cons_succ]
              exact hrec

/-- If a per-EPG pass rewrites each EPG's folder list as a pointwise map
followed by appended new folders, then any folder fixed by the pointwise
function keeps its exact position and value across the tenant-level pass. -/
theorem tenantPass_folderAt (pE : EPG → EPG × Bool) (g : Folder → Folder)
    (ex : EPG → List Folder)
    (hshape : ∀ e, ((pE e).1).folders = e.folders.map g ++ ex e)
    (t : Tenant) (nm : String) (i j k : Nat) (f : Folder)
    (hf : folderAt t i j k = some f) (hgf : g f = f) :
    folderAt (tenantPass pE t nm).1 i j k = some f := by
  unfold tenantPass
  cases hfind : t.apps.find? (fun a => a.name == nm) with
  | none => exact hf
  | some app =>
      have hrep := updateFirstApp_getElem? t.apps nm app
        ⟨app.name, (app.epgs.map pE).map Prod.fst⟩ hfind i
      unfold folderAt at hf ⊢
      cases hrep with
      | inl heq =>
          rw [heq]
          exact hf
      | inr hrep =>
          obtain ⟨horig, hnew⟩ := hrep
          rw [horig] at hf
          have hf2 : (match app.epgs[j]? with
            | none => none
            | some e => e.folders[k]?) = some f := hf
          rw [hnew]
          show (match ((app.epgs.map pE).map Prod.fst)[j]? with
            | none => none
            | some e => e.folders[k]?) = some f
          cases hj : app.epgs[j]? with
          | none => rw [hj] at hf2; cases hf2
          | some e =>
              rw [hj] at hf2
              have hf3 : e.folders[k]? = some f := hf2
              have hj2 : ((app.epgs.map pE).map Prod.fst)[j]? = some ((pE e).1) := by
                rw [List.map_map, List.getElem?_map, hj]
                rfl
              rw [hj2]
              show ((pE e).1).folders[k]? = some f
              rw [hshape e]
              rw [getElem?_map_append hf3, hgf]

/-- C9: no forward pass ever mutates a backup Folder: for any sequence of
the three forward passes, a direct EPG child that is a backup (name ends
in the suffix and key is still InterfaceConfig) occupies the same position
with identical name, key, fields and children afterwards. -/
theorem C9_backups_never_mutated (ps : List ForwardPass) (t : Tenant) (nm : String)
    (i j k : Nat) (f : Folder) (hf : folderAt t i j k = some f)
    (hb : isBackupFolder f = true) :
    folderAt (runForwardSeq ps t nm) i j k = some f := by
  have hb2 := hb
  unfold isBackupFolder at hb2
  rw [Bool.and_eq_true] at hb2
  obtain ⟨hsuf, hkey⟩ := hb2
  have hkeyic : f.key = "InterfaceConfig" := by
    simpa using hkey
  have hkeyni : (f.key == "Interface") = false := by
    rw [hkeyic]
    decide
  induction ps generalizing t with
  | nil => exact hf
  | cons p ps ih =>
      have hstep : folderAt (runForwardPass p t nm).1 i j k = some f := by
        cases p with
        | interfaceKeys =>
            apply tenantPass_folderAt migrateIFKeysEpg
              (fun f => if folderNeedsMigration f then migrateFolder f else f)
              (fun e => (e.folders.filter folderNeedsMigration).map makeBackup)
              (fun e => rfl) t nm i j k f hf
            have hnm : folderNeedsMigration f = false := by
              unfold folderNeedsMigration
              rw [hsuf]
              simp
            rw [hnm]
            simp
        | zonesVlans =>
            apply tenantPass_folderAt migrateZVEpg (fun f => (zvFolder f).1)
              (fun e => ((e.folders.map zvFolder).map Prod.snd).flatten)
              (fun e => by simp [migrateZVEpg, List.map_map]) t nm i j k f hf
            rw [zvFolder_of_ne f hkeyni]
        | defaultGateway =>
            apply tenantPass_folderAt migrateDGEpg (fun f => (dgFolder f).1)
              (fun e => ((e.folders.map dgFolder).map Prod.snd).flatten)
              (fun e => by simp [migrateDGEpg, List.map_map]) t nm i j k f hf
            rw [dgFolder_of_ne f hkeyni]
      have hseq : runForwardSeq (p :: ps) t nm
          = runForwardSeq ps (runForwardPass p t nm).1 nm := rfl
      rw [hseq]
      exact ih _ hstep

/-- C9 witness: the preservation theorem applied to the concrete tenant tb
whose only folder is the backup backupF, under the full forward sequence. -/
theorem C9_backups_never_mutated_witness :
    folderAt tb 0 0 0 = some backupF
    ∧ isBackupFolder backupF = true
    ∧ folderAt (runForwardSeq
        [ForwardPass.interfaceKeys, ForwardPass.zonesVlans, ForwardPass.defaultGateway]
        tb "a") 0 0 0 = some backupF :=
  ⟨by decide, by decide,
   C9_backups_never_mutated
     [ForwardPass.interfaceKeys, ForwardPass.zonesVlans, ForwardPass.defaultGateway]
     tb "a" 0 0 0 backupF (by decide) (by decide)⟩

/-- The full forward pipeline on the tree of C1: one EPG holding one
InterfaceConfig folder with a Layer3InterfaceConfig sub-folder carrying
security_zone=zoneA and default_gateway=10.0.0.1. -/
theorem forwardPasses_c1_tree (tn an en fn fc d1 d2 d3 d4 ln lc1 lc2 lc3 lc4 lc5
    pn1 pn2 : String)
    (hname : strEndsWith fn premigrationSuffix = false) :
    forwardPasses (⟨tn, [⟨an, [⟨en,
        [Folder.mk fn "InterfaceConfig" fc d1 d2 d3 d4
          [Folder.mk ln "Layer3InterfaceConfig" lc1 lc2 lc3 lc4 lc5 []
            [⟨pn1, "security_zone", "zoneA", false⟩,
             ⟨pn2, "default_gateway", "10.0.0.1", false⟩] [] false]
          [] [] false]⟩]⟩]⟩) an
    = ⟨tn, [⟨an, [⟨en,
        [Folder.mk fn "Interface" fc d1 d2 d3 d4
          [Folder.mk ln "Layer3Interface" lc1 lc2 lc3 lc4 lc5 []
            [⟨pn1, "security_zone", "zoneA", true⟩,
             ⟨pn2, "default_gateway", "10.0.0.1", true⟩]
            [⟨"security_zone_rel", "zone", "zoneA", false⟩] false]
          [] [] false,
         Folder.mk (fn ++ premigrationSuffix) "InterfaceConfig" (fc ++ premigrationSuffix)
          d1 d2 d3 d4
          [Folder.mk ln "Layer3InterfaceConfig" lc1 lc2 lc3 lc4 lc5 []
            [⟨pn1, "security_zone", "zoneA", false⟩,
             ⟨pn2, "default_gateway", "10.0.0.1", false⟩] [] false]
          [] [] false,
         Folder.mk "zoneA" "Zone" fc d1 d2 d3 d4 []
            [⟨"mode", "mode", "layer3", false⟩] [] false,
         Folder.mk "default_gateway" "StaticRoute" fc d1 d2 d3 d4 []
            [⟨"nexthop", "nexthop", "10.0.0.1", false⟩,
             ⟨"destination", "destination", "0.0.0.0/0", false⟩] [] false]⟩]⟩]⟩ := by
  have hk15 : strTake "Layer3InterfaceConfig" 15 = "Layer3Interface" := by decide
  have hlow : strLower (strTake "Layer3Interface" 6) = "layer3" := by decide
  simp [forwardPasses, migrate_interface_folder_keys, migrate_zones_and_vlans,
    migrate_default_gateway, tenantPass, List.find?, updateFirstApp,
    migrateIFKeysEpg, migrateZVEpg, migrateDGEpg, folderNeedsMigration, hname,
    Folder.key, Folder.name, migrateFolder, migrateSubfolderKey, zvFolder,
    zvLayer, isLayerKey, isZVParam, newZVFolder, zvRefKey, zvRelation,
    Folder.withSubfolders, Folder.withParamsRelations, Folder.subfolders,
    Folder.params, Folder.relations, Folder.ctrctNameOrLbl, Folder.devCtxLbl,
    Folder.graphNameOrLbl, Folder.nodeNameOrLbl, Folder.scopedBy,
    dgFolder, dgLayer, newStaticRouteFolder, Parameter.markDeleted,
    hk15, hlow, makeBackup]

/-- C1: for every tree of the given shape, an EPG with one InterfaceConfig
Folder (not itself a backup) whose Layer3InterfaceConfig sub-folder holds
security_zone=zoneA and default_gateway=10.0.0.1, the three forward passes
in order yield a tree containing a backup folder named with the
_premigration suffix and key InterfaceConfig, an Interface folder whose
Layer3Interface sub-folder holds a Relation with key zone targeting zoneA,
a Zone folder named zoneA with a mode Parameter valued layer3, and a
StaticRoute folder named default_gateway with nexthop 10.0.0.1 and
destination 0.0.0.0/0. -/
theorem C1_forward_migration (tn an en fn fc d1 d2 d3 d4 ln lc1 lc2 lc3 lc4 lc5
    pn1 pn2 : String)
    (hname : strEndsWith fn premigrationSuffix = false) :
    ∃ app ∈ (forwardPasses (⟨tn, [⟨an, [⟨en,
        [Folder.mk fn "InterfaceConfig" fc d1 d2 d3 d4
          [Folder.mk ln "Layer3InterfaceConfig" lc1 lc2 lc3 lc4 lc5 []
            [⟨pn1, "security_zone", "zoneA", false⟩,
             ⟨pn2, "default_gateway", "10.0.0.1", false⟩] [] false]
          [] [] false]⟩]⟩]⟩) an).apps, ∃ e ∈ app.epgs,
      (∃ b ∈ e.folders, b.name = fn ++ premigrationSuffix ∧ b.key = "InterfaceConfig")
      ∧ (∃ fi ∈ e.folders, fi.key = "Interface"
          ∧ ∃ sub ∈ fi.subfolders, sub.key = "Layer3Interface"
            ∧ ∃ r ∈ sub.relations, r.key = "zone" ∧ r.targetName = "zoneA")
      ∧ (∃ z ∈ e.folders, z.name = "zoneA" ∧ z.key = "Zone"
          ∧ ∃ m ∈ z.params, m.name = "mode" ∧ m.value = "layer3")
      ∧ (∃ s ∈ e.folders, s.name = "default_gateway" ∧ s.key = "StaticRoute"
          ∧ (∃ q1 ∈ s.params, q1.key = "nexthop" ∧ q1.value = "10.0.0.1")
          ∧ (∃ q2 ∈ s.params, q2.key = "destination" ∧ q2.value = "0.0.0.0/0")) := by
  rw [forwardPasses_c1_tree tn an en fn fc d1 d2 d3 d4 ln lc1 lc2 lc3 lc4 lc5
    pn1 pn2 hname]
  refine ⟨_, List.mem_cons_self _ _, _, List.mem_cons_self _ _, ?_, ?_, ?_, ?_⟩
  · exact ⟨_, List.mem_cons_of_mem _ (List.mem_cons_self _ _), rfl, rfl⟩
  · exact ⟨_, List.mem_cons_self _ _, rfl,
      ⟨_, List.mem_cons_self _ _, rfl, ⟨_, List.mem_cons_self _ _, rfl, rfl⟩⟩⟩
  · exact ⟨_, List.mem_cons_of_mem _ (List.mem_cons_of_mem _ (List.mem_cons_self _ _)),
      rfl, rfl, ⟨_, List.mem_cons_self _ _, rfl, rfl⟩⟩
  · exact ⟨_, List.mem_cons_of_mem _ (List.mem_cons_of_mem _ (List.mem_cons_of_mem _
        (List.mem_cons_self _ _))),
      rfl, rfl, ⟨_, List.mem_cons_self _ _, rfl, rfl⟩,
      ⟨_, List.mem_cons_of_mem _ (List.mem_cons_self _ _), rfl, rfl⟩⟩

/-- C1 witness: the forward-migration theorem applied to a concrete tree. -/
theorem C1_forward_migration_witness :
    strEndsWith "fold1" premigrationSuffix = false
    ∧ (∃ app ∈ (forwardPasses (⟨"ten1", [⟨"app1", [⟨"epg1",
        [Folder.mk "fold1" "InterfaceConfig" "ctr" "dc" "gr" "nd" "sc"
          [Folder.mk "lay1" "Layer3InterfaceConfig" "lc" "ld" "lg" "ln" "ls" []
            [⟨"p1", "security_zone", "zoneA", false⟩,
             ⟨"p2", "default_gateway", "10.0.0.1", false⟩] [] false]
          [] [] false]⟩]⟩]⟩) "app1").apps, ∃ e ∈ app.epgs,
      (∃ b ∈ e.folders, b.name = "fold1" ++ premigrationSuffix
          ∧ b.key = "InterfaceConfig")
      ∧ (∃ fi ∈ e.folders, fi.key = "Interface"
          ∧ ∃ sub ∈ fi.subfolders, sub.key = "Layer3Interface"
            ∧ ∃ r ∈ sub.relations, r.key = "zone" ∧ r.targetName = "zoneA")
      ∧ (∃ z ∈ e.folders, z.name = "zoneA" ∧ z.key = "Zone"
          ∧ ∃ m ∈ z.params, m.name = "mode" ∧ m.value = "layer3")
      ∧ (∃ s ∈ e.folders, s.name = "default_gateway" ∧ s.key = "StaticRoute"
          ∧ (∃ q1 ∈ s.params, q1.key = "nexthop" ∧ q1.value = "10.0.0.1")
          ∧ (∃ q2 ∈ s.params, q2.key = "destination" ∧ q2.value = "0.0.0.0/0"))) :=
  ⟨by decide,
   C1_forward_migration "ten1" "app1" "epg1" "fold1" "ctr" "dc" "gr" "nd" "sc"
     "lay1" "lc" "ld" "lg" "ln" "ls" "p1" "p2" (by decide)⟩

/-- C6 witness: the amended round-trip theorem at a concrete dn. -/
theorem C6_cluster_target_roundtrip_witness :
    (strSplit "uni/tn-t1/lDevVip-cl1/rsmDevAtt" '/')[2]? = some "lDevVip-cl1"
    ∧ (migrate_clusters [mdevRec panosDn12 "uni/tn-t1/lDevVip-cl1/rsmDevAtt"]
        = Except.ok [emitLDevVip (strDrop "lDevVip-cl1" 8) panosDn13]
       ∧ revert_clusters [mdevRec panosDn13 "uni/tn-t1/lDevVip-cl1/rsmDevAtt"]
        = Except.ok [emitLDevVip (strDrop "lDevVip-cl1" 8) panosDn12]) :=
  ⟨by decide, C6_cluster_target_roundtrip "uni/tn-t1/lDevVip-cl1/rsmDevAtt" "lDevVip-cl1" (by decide)⟩

end Migrator
